import Mathlib

/-!
Shallow embedding of the image-generation UI orchestrator of this
repository: the component state and the handlers `handleGenerateClick`
and `handleReset` of src/App.tsx, and the aspect-ratio declarations of
src/types.ts (src/unnamed/part_000).

The asynchronous Generation Client call `generate(...)` is modelled by
passing its resolution behavior (`GenOutcome`) as an explicit parameter,
and the handler additionally returns the argument record of the client
invocation (`Option ClientCall`: `none` when the client was not invoked).
-/

/-- The closed aspect-ratio union type of src/types.ts:
"1:1" | "3:4" | "4:3" | "9:16" | "16:9". -/
inductive AspectRatio where
  | r1x1
  | r3x4
  | r4x3
  | r9x16
  | r16x9
deriving DecidableEq, Repr

/-- The string label of an aspect ratio, as written in the source. -/
def AspectRatio.toLabel : AspectRatio → String
  | .r1x1 => "1:1"
  | .r3x4 => "3:4"
  | .r4x3 => "4:3"
  | .r9x16 => "9:16"
  | .r16x9 => "16:9"

/-- Every inhabitant of the aspect-ratio type. -/
def AspectRatio.all : List AspectRatio := [.r1x1, .r3x4, .r4x3, .r9x16, .r16x9]

/-- ASPECT_RATIOS of src/types.ts: the ratios surfaced to the user. -/
def ASPECT_RATIOS : List AspectRatio := [.r3x4, .r9x16]

/-- JavaScript String.prototype.toLowerCase, restricted to the ASCII
range, which covers every style label the source defines. -/
def jsToLowerCase (s : String) : String := s.toLower

/-- The inline validation message of src/App.tsx. -/
def validationMessage : String := "Please write a prompt or upload an image."

/-- The fallback message of the catch branch of src/App.tsx. -/
def unknownErrorMessage : String := "An unknown error occurred."

/-- The component state of App (src/App.tsx): one field per useState
hook. The uploaded File is modelled by an identifying string. -/
structure AppState where
  prompt : String
  uploadedImage : Option String
  selectedStyle : String
  selectedAspectRatio : AspectRatio
  isLoading : Bool
  generatedImageUrl : Option String
  error : Option String
  isTextOnlyResult : Bool
deriving DecidableEq, Repr

/-- A JavaScript value thrown by the awaited client call, as the catch
branch distinguishes it: an Error instance carrying a message, or any
other thrown value. -/
inductive Thrown where
  | errorInstance (message : String)
  | nonError
deriving DecidableEq, Repr

/-- Resolution behavior of the Generation Client for one call: resolve
with an image URL, or throw. -/
inductive GenOutcome where
  | ok (imageUrl : String)
  | thrown (t : Thrown)
deriving DecidableEq, Repr

/-- The message extraction of the catch branch:
err instanceof Error ? err.message : 'An unknown error occurred.'. -/
def caughtMessage : Thrown → String
  | .errorInstance m => m
  | .nonError => unknownErrorMessage

/-- The arguments with which `generate` is invoked. -/
structure ClientCall where
  finalPrompt : String
  aspectRatio : AspectRatio
  image : Option String
deriving DecidableEq, Repr

/-- handleGenerateClick of src/App.tsx. Guards in source order: the
validation check (empty prompt and no image) comes first, then the
in-flight check. On acceptance: loading set, error and result cleared,
the selected ratio updated when a new one is passed, the final prompt
composed from the prompt and the lower-cased style, isTextOnlyResult
recorded, the client invoked, and the outcome folded into the state with
the finally branch clearing the loading flag. -/
def handleGenerateClick (s : AppState) (newAspectRatio : Option AspectRatio)
    (outcome : GenOutcome) : AppState × Option ClientCall :=
  if s.prompt = "" ∧ s.uploadedImage = none then
    ({ s with error := some validationMessage }, none)
  else if s.isLoading then
    (s, none)
  else
    let currentAspectRatio := newAspectRatio.getD s.selectedAspectRatio
    let s1 : AppState :=
      { s with isLoading := true, error := none, generatedImageUrl := none }
    let s2 : AppState :=
      match newAspectRatio with
      | some r => { s1 with selectedAspectRatio := r }
      | none => s1
    let finalPrompt :=
      s.prompt ++ ", in a " ++ jsToLowerCase s.selectedStyle ++ " style."
    let s3 : AppState := { s2 with isTextOnlyResult := s.uploadedImage.isNone }
    let call : ClientCall :=
      { finalPrompt := finalPrompt, aspectRatio := currentAspectRatio,
        image := s.uploadedImage }
    match outcome with
    | .ok url =>
        ({ s3 with generatedImageUrl := some url, isLoading := false }, some call)
    | .thrown t =>
        ({ s3 with error := some (caughtMessage t), generatedImageUrl := none,
                   isLoading := false }, some call)

/-- handleReset of src/App.tsx: clears result and error, keeps
everything else (the comment in the source: prompt and image are kept
for easier re-generation). -/
def handleReset (s : AppState) : AppState :=
  { s with generatedImageUrl := none, error := none }

/-- Whether renderContent of src/App.tsx shows the aspect-ratio retry
card: not loading, no error, a generated image present, and the last
result was text-only. -/
def retryOffered (s : AppState) : Bool :=
  !s.isLoading && s.error.isNone && s.generatedImageUrl.isSome && s.isTextOnlyResult

/-- A concrete idle state with empty prompt and no image. -/
def emptyState : AppState :=
  { prompt := "", uploadedImage := none, selectedStyle := "Fairy Tale",
    selectedAspectRatio := .r3x4, isLoading := false,
    generatedImageUrl := none, error := none, isTextOnlyResult := true }

/-- A concrete state with a request in flight and an empty prompt. -/
def loadingEmptyState : AppState := { emptyState with isLoading := true }

/-- A concrete state with a request in flight and a non-empty prompt. -/
def loadingState : AppState :=
  { emptyState with prompt := "A cat wearing a space helmet", isLoading := true }

/-- A concrete idle state with a non-empty prompt, ready to submit. -/
def readyState : AppState :=
  { emptyState with prompt := "A cat wearing a space helmet" }

/-- C1: with empty prompt and no uploaded image, submit sets the error
state to the validation message and never invokes the Generation
Client, whatever the rest of the state, the optional new ratio and the
client behavior. -/
theorem submit_empty_rejects (s : AppState) (nr : Option AspectRatio)
    (o : GenOutcome) (hp : s.prompt = "") (hi : s.uploadedImage = none) :
    handleGenerateClick s nr o = ({ s with error := some validationMessage }, none) := by
  simp [handleGenerateClick, hp, hi]

/-- Witness for C1 at a concrete empty submission. -/
theorem submit_empty_rejects_witness :
    handleGenerateClick emptyState none (.ok "img") =
      ({ emptyState with error := some validationMessage }, none) :=
  submit_empty_rejects emptyState none (.ok "img") rfl rfl

/-- C2 counterexample: a submit issued while a request is in flight but
with an empty prompt and no image is not a silent no-op: the validation
branch runs before the in-flight guard and sets the error message. -/
theorem submit_while_loading_changes_state :
    (handleGenerateClick loadingEmptyState none (.ok "img")).1 ≠ loadingEmptyState := by
  decide

/-- C2 (amended): while a request is in flight, the Generation Client
is never invoked; the state is left entirely unchanged whenever the
prompt is non-empty or an image is uploaded; an empty submission while
loading still sets the validation message and changes nothing else,
because the validation check precedes the in-flight guard. -/
theorem submit_while_loading (s : AppState) (nr : Option AspectRatio)
    (o : GenOutcome) (hl : s.isLoading = true) :
    (handleGenerateClick s nr o).2 = none ∧
    (¬(s.prompt = "" ∧ s.uploadedImage = none) →
      handleGenerateClick s nr o = (s, none)) ∧
    (s.prompt = "" ∧ s.uploadedImage = none →
      handleGenerateClick s nr o = ({ s with error := some validationMessage }, none)) := by
  by_cases h : s.prompt = "" ∧ s.uploadedImage = none
  · simp [handleGenerateClick, h, hl]
  · simp [handleGenerateClick, h, hl]

/-- Witness for C2 at a concrete in-flight state with non-empty prompt. -/
theorem submit_while_loading_witness :
    handleGenerateClick loadingState none (.ok "img") = (loadingState, none) :=
  (submit_while_loading loadingState none (.ok "img") rfl).2.1 (by decide)

/-- C3: an accepted submission with non-empty prompt invokes the Client
with first argument exactly prompt ++ ", in a " ++ toLowerCase style ++
" style.". -/
theorem submit_final_prompt (s : AppState) (nr : Option AspectRatio)
    (o : GenOutcome) (hp : s.prompt ≠ "") (hl : s.isLoading = false) :
    ((handleGenerateClick s nr o).2).map ClientCall.finalPrompt =
      some (s.prompt ++ ", in a " ++ jsToLowerCase s.selectedStyle ++ " style.") := by
  cases o <;> simp [handleGenerateClick, hp, hl]

/-- Witness for C3: the worked example of the spec, prompt "A cat
wearing a space helmet" with style "Fairy Tale". -/
theorem submit_final_prompt_witness :
    ((handleGenerateClick readyState none (.ok "img")).2).map ClientCall.finalPrompt =
      some ("A cat wearing a space helmet" ++ ", in a " ++ jsToLowerCase "Fairy Tale" ++ " style.") :=
  submit_final_prompt readyState none (.ok "img") (by decide) rfl

/-- C4: an accepted submission whose client call resolves with url ends
in Success holding exactly url, with no error and loading cleared. -/
theorem submit_success (s : AppState) (nr : Option AspectRatio) (url : String)
    (hv : ¬(s.prompt = "" ∧ s.uploadedImage = none)) (hl : s.isLoading = false) :
    ((handleGenerateClick s nr (.ok url)).1).generatedImageUrl = some url ∧
    ((handleGenerateClick s nr (.ok url)).1).error = none ∧
    ((handleGenerateClick s nr (.ok url)).1).isLoading = false := by
  cases nr <;> simp [handleGenerateClick, hv, hl]

/-- Witness for C4 at a concrete successful submission. -/
theorem submit_success_witness :
    ((handleGenerateClick readyState none (.ok "img")).1).generatedImageUrl = some "img" ∧
    ((handleGenerateClick readyState none (.ok "img")).1).error = none ∧
    ((handleGenerateClick readyState none (.ok "img")).1).isLoading = false :=
  submit_success readyState none "img" (by decide) rfl

/-- C5: an accepted submission whose client call throws an Error with
message msg ends in Failed holding msg verbatim, with the previously
displayed result cleared and loading cleared. -/
theorem submit_failure (s : AppState) (nr : Option AspectRatio) (msg : String)
    (hv : ¬(s.prompt = "" ∧ s.uploadedImage = none)) (hl : s.isLoading = false) :
    ((handleGenerateClick s nr (.thrown (.errorInstance msg))).1).error = some msg ∧
    ((handleGenerateClick s nr (.thrown (.errorInstance msg))).1).generatedImageUrl = none ∧
    ((handleGenerateClick s nr (.thrown (.errorInstance msg))).1).isLoading = false := by
  cases nr <;> simp [handleGenerateClick, caughtMessage, hv, hl]

/-- Witness for C5 at a concrete failing submission. -/
theorem submit_failure_witness :
    ((handleGenerateClick readyState none (.thrown (.errorInstance "boom"))).1).error = some "boom" ∧
    ((handleGenerateClick readyState none (.thrown (.errorInstance "boom"))).1).generatedImageUrl = none ∧
    ((handleGenerateClick readyState none (.thrown (.errorInstance "boom"))).1).isLoading = false :=
  submit_failure readyState none "boom" (by decide) rfl

/-- C6: reset clears the result and error and leaves the prompt and the
uploaded image (and every other field) unchanged. -/
theorem reset_clears_and_preserves (s : AppState) :
    (handleReset s).generatedImageUrl = none ∧ (handleReset s).error = none ∧
    (handleReset s).prompt = s.prompt ∧
    (handleReset s).uploadedImage = s.uploadedImage ∧
    (handleReset s).selectedStyle = s.selectedStyle ∧
    (handleReset s).selectedAspectRatio = s.selectedAspectRatio ∧
    (handleReset s).isLoading = s.isLoading ∧
    (handleReset s).isTextOnlyResult = s.isTextOnlyResult := by
  simp [handleReset]

/-- C7: an accepted retry with a new ratio r invokes the Client with the
last-known prompt, image and style but ratio r, updates the selected
ratio to r, and the retry affordance is offered only when the prior
result was text-only. -/
theorem retry_with_aspect_ratio (s : AppState) (r : AspectRatio) (o : GenOutcome)
    (hv : ¬(s.prompt = "" ∧ s.uploadedImage = none)) (hl : s.isLoading = false) :
    (handleGenerateClick s (some r) o).2 =
      some { finalPrompt := s.prompt ++ ", in a " ++ jsToLowerCase s.selectedStyle ++ " style.",
             aspectRatio := r, image := s.uploadedImage } ∧
    ((handleGenerateClick s (some r) o).1).selectedAspectRatio = r ∧
    (retryOffered s = true → s.isTextOnlyResult = true) := by
  refine ⟨?_, ?_, ?_⟩
  · cases o <;> simp [handleGenerateClick, hv, hl]
  · cases o <;> simp [handleGenerateClick, hv, hl]
  · intro h
    simp only [retryOffered, Bool.and_eq_true] at h
    exact h.2

/-- Witness for C7 at a concrete retry with ratio 9:16. -/
theorem retry_with_aspect_ratio_witness :
    ((handleGenerateClick readyState (some .r9x16) (.ok "img")).1).selectedAspectRatio = .r9x16 :=
  (retry_with_aspect_ratio readyState .r9x16 (.ok "img") (by decide) rfl).2.1

/-- C8: on client success, isTextOnlyResult is recorded true exactly
when no image was uploaded for the request. -/
theorem success_records_text_only (s : AppState) (nr : Option AspectRatio)
    (url : String)
    (hv : ¬(s.prompt = "" ∧ s.uploadedImage = none)) (hl : s.isLoading = false) :
    ((handleGenerateClick s nr (.ok url)).1).isTextOnlyResult = s.uploadedImage.isNone := by
  cases nr <;> simp [handleGenerateClick, hv, hl]

/-- Witness for C8: a concrete request with no uploaded image records
isTextOnlyResult = true. -/
theorem success_records_text_only_witness :
    ((handleGenerateClick readyState none (.ok "img")).1).isTextOnlyResult = true :=
  success_records_text_only readyState none "img" (by decide) rfl

/-- C9: the ratios surfaced to the user are exactly "3:4" and "9:16",
and every surfaced ratio belongs to the full enumerated type. -/
theorem aspect_ratios_surfaced :
    ASPECT_RATIOS.map AspectRatio.toLabel = ["3:4", "9:16"] ∧
    ASPECT_RATIOS.all (fun r => decide (r ∈ AspectRatio.all)) = true := by
  decide

/-- C10: an accepted submission whose client call throws a value that
is not an Error instance ends in Failed holding the fallback message,
and the catch branch is total: every thrown value yields some message. -/
theorem failure_catch_total (s : AppState) (nr : Option AspectRatio)
    (hv : ¬(s.prompt = "" ∧ s.uploadedImage = none)) (hl : s.isLoading = false) :
    ((handleGenerateClick s nr (.thrown .nonError)).1).error = some unknownErrorMessage ∧
    ∀ t : Thrown, ((handleGenerateClick s nr (.thrown t)).1).error = some (caughtMessage t) := by
  constructor
  · cases nr <;> simp [handleGenerateClick, caughtMessage, hv, hl]
  · intro t
    cases nr <;> cases t <;> simp [handleGenerateClick, caughtMessage, hv, hl]

/-- Witness for C10 at a concrete non-Error throw. -/
theorem failure_catch_total_witness :
    ((handleGenerateClick readyState none (.thrown .nonError)).1).error =
      some unknownErrorMessage :=
  (failure_catch_total readyState none (by decide) rfl).1
